import Mathlib

/-!
Verification development for the optimistic-mutation and cache-reconciliation
core of a React/Apollo GraphQL client demo.

The repository's own code (the Pets component) supplies the caller-side
pieces: the reconciliation `update` function that prepends the mutation
result to the `getPets` query result, the `optimisticResponse` payload whose
provisional id is drawn from Math.random, and the render function with its
error branch.  The engine itself (entity store, optimistic overlay, mutation
lifecycle) lives in the Apollo Client library, not in this repository, so it
is modelled here from the design specification.
-/

namespace GraphqlClient

/-- A pet entity as selected by the getPets query and the createPet mutation
in the Pets component: fields name, id, type, img (all GraphQL strings).
`type` is a reserved word in Lean, so the field is named `ptype`. -/
structure Pet where
  id : String
  name : String
  ptype : String
  img : String
deriving DecidableEq, Repr

/-- Modelled from the spec: an entity is "identified by a stable key derived
from its type name and server-assigned identifier (e.g., `Pet:5`)". -/
def petKey (p : Pet) : String := "Pet:" ++ p.id

/-- Modelled from the spec: one optimistic overlay layer, "stored in an
overlay keyed by a monotonically increasing mutation sequence number".
It holds the provisional shadow records written by one mutation's optimistic
payload, and, when the mutation's reconciliation touched the pets query
result optimistically, a provisional version of that result's entity
references. -/
structure OverlayLayer where
  seq : Nat
  entities : List (String × Pet)
  petsResult : Option (List String)
deriving DecidableEq, Repr

/-- Modelled from the spec: the client cache.  `canonical` is the Entity
Store, "a normalized mapping from entity identity to field data", holding at
most one canonical record per key.  `petsResult` is the Query Result Cache
entry for getPets, "a list of entity references (not copies)"; `none` is the
cache-miss signal of an absent or incomplete result.  `overlay` is the
optimistic layer.  `notifCount` counts notifications delivered to the
observer of the pets query result. -/
structure CacheState where
  canonical : List (String × Pet)
  petsResult : Option (List String)
  overlay : List OverlayLayer
  notifCount : Nat
deriving DecidableEq, Repr

/-- Look a key up in the overlay layers, newest (head) first. -/
def layerLookup : List OverlayLayer → String → Option Pet
  | [], _ => none
  | l :: rest, key =>
    match l.entities.lookup key with
    | some p => some p
    | none => layerLookup rest key

/-- Modelled from the spec: the read-during-pending rule, "while an overlay
entry exists for a key, reads directed at that key must prefer the overlay
entry over the canonical record". -/
def readEntity (st : CacheState) (key : String) : Option Pet :=
  match layerLookup st.overlay key with
  | some p => some p
  | none => st.canonical.lookup key

/-- The entity references currently composing the pets query result: the
newest overlay layer that wrote a provisional pets result wins; otherwise
the canonical references are used. -/
def effectiveRefs (st : CacheState) : Option (List String) :=
  match st.overlay.find? (fun l => l.petsResult.isSome) with
  | some l => l.petsResult
  | none => st.petsResult

/-- Modelled from the spec: `resolve(queryId, variables)` "returns a
materialized result by walking stored references, or a cache-miss signal if
incomplete".  Materializes the getPets query result. -/
def resolvePets (st : CacheState) : Option (List Pet) :=
  (effectiveRefs st).bind (fun refs => refs.mapM (readEntity st))

/-- Modelled from the spec: `write(entity)` on the Entity Store "merges
fields into the canonical record for that key (upsert semantics,
last-write-wins per field)"; here the mutation result carries every selected
field, so the upsert replaces the whole record, keeping at most one
canonical record per key. -/
def writeEntity : List (String × Pet) → String → Pet → List (String × Pet)
  | [], key, p => [(key, p)]
  | kv :: rest, key, p =>
    if kv.1 = key then (key, p) :: rest else kv :: writeEntity rest key p

/-- A canonical Entity Store write lifted to the cache state: it touches
only the canonical mapping, never the query-result references or the
overlay. -/
def writeCanonical (st : CacheState) (key : String) (p : Pet) : CacheState :=
  { st with canonical := writeEntity st.canonical key p }

/-- The materialized getPets result as `cache.readQuery` sees it at commit
time, when the committing mutation's optimistic layer has been removed:
walked from the canonical references and canonical records only, with the
cache-miss signal when the result is absent or any referenced entity is
missing. -/
def canonicalPets (st : CacheState) : Option (List Pet) :=
  st.petsResult.bind (fun refs => refs.mapM (fun k => st.canonical.lookup k))

/-- The type of a caller-supplied reconciliation step: given the mutation
result entity and the materialized pets query result read from the cache
(`none` is the cache miss), it either produces the new pets list or throws
(embedded as `Except.error`). -/
def Recon : Type := Pet → Option (List Pet) → Except String (List Pet)

/-- The `update` function the Pets component passes to useMutation,
translated from the source: it destructures the result of
`cache.readQuery` into the pets list with no guard for a cache miss (a miss
therefore throws, embedded as `Except.error`), then writes the query result
back with the addPet entity prepended. -/
def updatePets : Recon := fun addPet res =>
  match res with
  | none => Except.error ("cache miss: cannot read pets from cache")
  | some pets => Except.ok (addPet :: pets)

/-- A `cache.writeQuery` of the pets result against the canonical store:
the written data is normalized, so every pet in the list is written as an
entity and the query result becomes the list of their references. -/
def writeQueryPets (st : CacheState) (pets : List Pet) : CacheState :=
  { pets.foldl (fun s p => writeCanonical s (petKey p) p) st with
      petsResult := some (pets.map petKey) }

/-- Modelled from the spec: the idle-to-pending transition.  With an
optimistic payload, the Optimistic Layer "immediately writes the optimistic
payload into the overlay (never into the canonical store) under a new
sequence number, and triggers notification as if it were real data"; acting
as if the payload were real data, the caller's reconciliation runs against
the overlay view (reading the materialized result, writing a provisional
query result into the layer), so the dependent pets view shows the
provisional entity.  "If omitted, no overlay write occurs". -/
def mutate (st : CacheState) (seq : Nat) (optimistic : Option Pet)
    (recon : Recon) : CacheState :=
  match optimistic with
  | none => st
  | some p =>
    let optRefs :=
      match recon p (resolvePets st) with
      | Except.ok pets => some (pets.map petKey)
      | Except.error _ => none
    { st with
        overlay := { seq := seq, entities := [(petKey p, p)],
                     petsResult := optRefs } :: st.overlay,
        notifCount := st.notifCount + 1 }

/-- Modelled from the spec: the Optimistic Layer "is solely responsible for
removing overlay entries once superseded"; removal deletes the layer with
the given sequence number and touches nothing else. -/
def removeOverlay (st : CacheState) (seq : Nat) : CacheState :=
  { st with overlay := st.overlay.filter (fun l => l.seq != seq) }

/-- Modelled from the spec: the pending-to-committed transition.  "On a
successful response, the overlay entry for this sequence number is deleted,
and the server's authoritative payload is written into the canonical Entity
Store via `write`.  If an explicit reconciliation function was supplied, it
runs after the canonical write completes", reading the materialized result
and writing the new pets list back through `writeQueryPets`.  A
reconciliation throw leaves the canonical state in place and is surfaced to
the caller as a result value (the second component).  The whole transition
is one batched notification pass. -/
def commit (st : CacheState) (seq : Nat) (server : Pet)
    (recon : Option Recon) : CacheState × Option String :=
  let st1 := removeOverlay st seq
  let st2 := writeCanonical st1 (petKey server) server
  match recon with
  | none => ({ st2 with notifCount := st2.notifCount + 1 }, none)
  | some f =>
    match f server (canonicalPets st2) with
    | Except.ok pets =>
        ({ writeQueryPets st2 pets with
             notifCount := st2.notifCount + 1 }, none)
    | Except.error e =>
        ({ st2 with notifCount := st2.notifCount + 1 }, some e)

/-- Modelled from the spec: the pending-to-rejected transition.  "On
failure, the overlay entry is deleted (rolling back the optimistic guess
with no canonical write), and the error is surfaced to the caller; no
reconciliation function runs."  When a layer is actually removed the
reverted view is re-notified. -/
def reject (st : CacheState) (seq : Nat) (err : String) :
    CacheState × String :=
  let st1 := removeOverlay st seq
  ({ st1 with
      notifCount :=
        st1.notifCount + (if st.overlay.any (fun l => l.seq == seq) then 1 else 0) },
   err)

/-- The optimistic payload built in onSubmit, translated from the source:
the id is the string of Math.floor(Math.random() * 1000), so it depends on
the random draw, here made explicit as the `rand` oracle argument (the
draw's value maps to `rand % 1000`); name and type come from the submitted
input; img is the placeholder URL. -/
def optimisticPayload (inputName inputType : String) (rand : Nat) : Pet :=
  { id := toString (rand % 1000), name := inputName, ptype := inputType,
    img := "https://via.placeholder.com/300" }

/-- What a render of the Pets component produces. -/
inductive RenderResult where
  | loader
  | errorText (s : String)
  | crashed (msg : String)
  | modal
  | page (pets : List Pet)
deriving DecidableEq, Repr

/-- The error string built by the error branch of the Pets component,
translated from the source: the template literal reads `error.message` and
then `createdPet.error.message`; reading `.message` of an undefined error
object throws a TypeError, embedded as `Except.error`. -/
def formatError (error createdPetError : Option String) :
    Except String String :=
  match error with
  | none => Except.error ("TypeError: cannot read message of undefined")
  | some e =>
    match createdPetError with
    | none => Except.error ("TypeError: cannot read message of undefined")
    | some ce => Except.ok ("Error! " ++ e ++ " $" ++ ce)

/-- The render function of the Pets component, translated from the source:
loading shows the loader; then the guard `error || createdPet.error` enters
the error branch, which builds the error string (or throws); then the modal;
otherwise the pets page with `data.pets || []`. -/
def renderPets (loading : Bool) (error createdPetError : Option String)
    (modal : Bool) (pets : Option (List Pet)) : RenderResult :=
  if loading then RenderResult.loader
  else if error.isSome || createdPetError.isSome then
    match formatError error createdPetError with
    | Except.ok s => RenderResult.errorText s
    | Except.error msg => RenderResult.crashed msg
  else if modal then RenderResult.modal
  else RenderResult.page (pets.getD [])

/-- A pre-existing canonical pet used in concrete scenarios. -/
def buddy : Pet :=
  { id := "1", name := "Buddy", ptype := "CAT", img := "buddy.png" }

/-- The optimistic payload of the create-pet scenario. -/
def rexTemp : Pet :=
  { id := "temp", name := "Rex", ptype := "DOG",
    img := "https://via.placeholder.com/300" }

/-- The server's authoritative payload of the create-pet scenario. -/
def rex42 : Pet :=
  { id := "42", name := "Rex", ptype := "DOG", img := "rex.png" }

/-- A cache state holding one canonical pet and a complete pets result. -/
def st0 : CacheState :=
  { canonical := [("Pet:1", buddy)], petsResult := some ["Pet:1"],
    overlay := [], notifCount := 0 }

/-- A cache state in which the pets query result is absent. -/
def stMiss : CacheState :=
  { canonical := [], petsResult := none, overlay := [], notifCount := 0 }

/-- A cache state whose pets query result is incomplete: it references an
entity missing from the store. -/
def stIncomplete : CacheState :=
  { canonical := [], petsResult := some ["Pet:9"], overlay := [],
    notifCount := 0 }

/-- Filtering away a sequence number that no overlay layer carries leaves
the overlay unchanged. -/
theorem overlay_filter_fresh (ls : List OverlayLayer) (seq : Nat)
    (h : ls.all (fun l => l.seq != seq) = true) :
    ls.filter (fun l => l.seq != seq) = ls :=
  List.filter_eq_self.mpr (List.all_eq_true.mp h)

/-- After filtering out a sequence number, no layer with it remains. -/
theorem all_bne_filter (ls : List OverlayLayer) (seq : Nat) :
    (ls.filter (fun l => l.seq != seq)).all (fun l => l.seq != seq) = true := by
  rw [List.all_eq_true]
  intro x hx
  exact (List.mem_filter.mp hx).2

/-- An Entity Store upsert makes the written record the one found under its
key. -/
theorem lookup_writeEntity (c : List (String × Pet)) (key : String) (p : Pet) :
    (writeEntity c key p).lookup key = some p := by
  induction c with
  | nil => simp [writeEntity, List.lookup]
  | cons kv rest ih =>
    obtain ⟨k, v⟩ := kv
    by_cases h : k = key
    · subst h
      simp [writeEntity, List.lookup]
    · have hb : (key == k) = false := by
        simp [Ne.symm h]
      simp [writeEntity, h, List.lookup, hb, ih]

/-- Normalizing query writes touch only the canonical store and the query
result, never the overlay. -/
theorem foldl_writeCanonical_overlay (pets : List Pet) (s : CacheState) :
    (pets.foldl (fun s p => writeCanonical s (petKey p) p) s).overlay
      = s.overlay := by
  induction pets generalizing s with
  | nil => rfl
  | cons p rest ih => exact ih (writeCanonical s (petKey p) p)

/-- Every commit delivers exactly one batched notification. -/
theorem commit_notifCount (st : CacheState) (seq : Nat) (server : Pet)
    (recon : Option Recon) :
    (commit st seq server recon).1.notifCount = st.notifCount + 1 := by
  cases recon with
  | none => rfl
  | some f =>
    simp only [commit]
    split <;> rfl

/-- Every commit leaves the overlay filtered of its sequence number. -/
theorem commit_overlay (st : CacheState) (seq : Nat) (server : Pet)
    (recon : Option Recon) :
    (commit st seq server recon).1.overlay
      = st.overlay.filter (fun l => l.seq != seq) := by
  cases recon with
  | none => rfl
  | some f =>
    simp only [commit]
    split
    · exact foldl_writeCanonical_overlay _ _
    · rfl

/-- Claim C2: a canonical Entity Store write alone never changes the
membership of the pets list result — the effective entity references (and
the stored canonical references) are exactly those before the write — and
any insertion happens only through the explicit caller-supplied
reconciliation step, which prepends the addPet result to the pets list. -/
theorem canonical_write_never_edits_list (st : CacheState) (key : String)
    (p addPet : Pet) (pets : List Pet) :
    effectiveRefs (writeCanonical st key p) = effectiveRefs st ∧
    (writeCanonical st key p).petsResult = st.petsResult ∧
    (writeCanonical st key p).overlay = st.overlay ∧
    updatePets addPet (some pets) = Except.ok (addPet :: pets) :=
  ⟨rfl, rfl, rfl, rfl⟩

/-- Claim C4: a completed (committed) mutation delivers exactly two
notifications to the pets observer when an optimistic payload was supplied
(one for the optimistic overlay write, one batched for the canonical write
plus reconciliation) and exactly one when no optimistic payload was
supplied. -/
theorem observer_notification_counts (st : CacheState) (seq : Nat)
    (p server : Pet) (recon : Recon) (creon : Option Recon) :
    (commit (mutate st seq (some p) recon) seq server creon).1.notifCount
      = st.notifCount + 2 ∧
    (commit (mutate st seq none recon) seq server creon).1.notifCount
      = st.notifCount + 1 := by
  refine ⟨?_, ?_⟩
  · rw [commit_notifCount]
    rfl
  · rw [commit_notifCount]
    rfl

/-- Claim C5: every terminal transition removes the mutation's overlay
entry: after a commit no overlay layer with the mutation's sequence number
remains (the layer is deleted and the authoritative payload is written into
the canonical store on top of the removal), and after a rejection no such
layer remains either. -/
theorem overlay_removed_on_terminal (st : CacheState) (seq : Nat)
    (server : Pet) (recon : Option Recon) (err : String) :
    (commit st seq server recon).1.overlay.all (fun l => l.seq != seq) = true ∧
    (reject st seq err).1.overlay.all (fun l => l.seq != seq) = true ∧
    commit st seq server none
      = ({ writeCanonical (removeOverlay st seq) (petKey server) server with
             notifCount := st.notifCount + 1 }, none) := by
  refine ⟨?_, ?_, rfl⟩
  · rw [commit_overlay]
    exact all_bne_filter st.overlay seq
  · exact all_bne_filter st.overlay seq

/-- Claim C8: when the getPets query result is absent or incomplete in the
cache (the materialized read is a cache miss), the update function supplied
to useMutation throws (embedded as `Except.error`) instead of returning a
pets list, because the readQuery result is destructured with no guard. -/
theorem update_throws_on_cache_miss (st : CacheState) (p : Pet)
    (h : canonicalPets st = none) :
    updatePets p (canonicalPets st)
      = Except.error ("cache miss: cannot read pets from cache") := by
  rw [h]
  rfl

/-- Witness for C8: a concrete incomplete cache state, whose pets result
references an entity missing from the store, makes the update throw. -/
theorem update_throws_on_cache_miss_witness :
    canonicalPets stIncomplete = none ∧
    updatePets rexTemp (canonicalPets stIncomplete)
      = Except.error ("cache miss: cannot read pets from cache") :=
  ⟨rfl, update_throws_on_cache_miss stIncomplete rexTemp rfl⟩

/-- Claim C9: in a render where the mutation has an error but the initial
query does not, the guard admits the error branch and the template literal
dereferences the undefined query error, so the component throws a TypeError
instead of rendering an error string. -/
theorem error_branch_crashes_on_mutation_error (ce : String) (modal : Bool)
    (pets : Option (List Pet)) :
    renderPets false none (some ce) modal pets
      = RenderResult.crashed ("TypeError: cannot read message of undefined") :=
  rfl

/-- Claim C10: the optimistic payload is not a deterministic function of
the submitted input — for a fixed input, two random draws yield different
payloads — and the provisional key can collide with an existing canonical
Pet key. -/
theorem optimistic_id_nondeterministic :
    (∃ inputName inputType r1 r2, r1 ≠ r2 ∧
      optimisticPayload inputName inputType r1
        ≠ optimisticPayload inputName inputType r2) ∧
    (∃ st inputName inputType rand existingKey,
      ((st : CacheState).canonical.lookup existingKey).isSome = true ∧
      petKey (optimisticPayload inputName inputType rand) = existingKey) := by
  constructor
  · exact ⟨"Rex", "DOG", 0, 1, by decide, by decide⟩
  · exact ⟨st0, "Rex", "DOG", 1, "Pet:1", by decide, by decide⟩

/-- Rejecting a freshly sequenced optimistic mutation returns the starting
state up to the notification count, with the error passed through. -/
theorem reject_after_mutate_eq (st : CacheState) (seq : Nat) (p : Pet)
    (recon : Recon) (err : String)
    (hfresh : st.overlay.all (fun l => l.seq != seq) = true) :
    reject (mutate st seq (some p) recon) seq err
      = ({ st with notifCount := st.notifCount + 2 }, err) := by
  simp only [mutate, reject, removeOverlay, List.filter_cons, List.any_cons,
    bne_self_eq_false, beq_self_eq_true, Bool.false_eq_true, if_false,
    Bool.true_or, if_true, overlay_filter_fresh st.overlay seq hfresh,
    Prod.mk.injEq, CacheState.mk.injEq, and_true, true_and]

/-- Claim C1: an optimistic mutation that is rejected leaves the dependent
pets view's materialized result exactly as it was before the mutation was
invoked — the overlay entry is deleted, the canonical store and the
canonical query result are untouched (no reconciliation write occurred),
and the error is surfaced to the caller. -/
theorem rejected_mutation_reverts_view (st : CacheState) (seq : Nat)
    (p : Pet) (recon : Recon) (err : String)
    (hfresh : st.overlay.all (fun l => l.seq != seq) = true) :
    resolvePets (reject (mutate st seq (some p) recon) seq err).1
      = resolvePets st ∧
    (reject (mutate st seq (some p) recon) seq err).1.canonical
      = st.canonical ∧
    (reject (mutate st seq (some p) recon) seq err).1.petsResult
      = st.petsResult ∧
    (reject (mutate st seq (some p) recon) seq err).1.overlay
      = st.overlay ∧
    (reject (mutate st seq (some p) recon) seq err).2 = err := by
  rw [reject_after_mutate_eq st seq p recon err hfresh]
  exact ⟨rfl, rfl, rfl, rfl, rfl⟩

/-- Witness for C1: the concrete one-pet state, a fresh sequence number,
the Rex optimistic payload and a network error. -/
theorem rejected_mutation_reverts_view_witness :
    st0.overlay.all (fun l => l.seq != 1) = true ∧
    (resolvePets (reject (mutate st0 1 (some rexTemp) updatePets) 1
        ("network error")).1 = resolvePets st0 ∧
     (reject (mutate st0 1 (some rexTemp) updatePets) 1
        ("network error")).1.canonical = st0.canonical ∧
     (reject (mutate st0 1 (some rexTemp) updatePets) 1
        ("network error")).1.petsResult = st0.petsResult ∧
     (reject (mutate st0 1 (some rexTemp) updatePets) 1
        ("network error")).1.overlay = st0.overlay ∧
     (reject (mutate st0 1 (some rexTemp) updatePets) 1
        ("network error")).2 = "network error") :=
  ⟨rfl, rejected_mutation_reverts_view st0 1 rexTemp updatePets
    ("network error") rfl⟩

/-- Claim C3: the create-pet scenario with an optimistic payload that
commits.  Immediately after invocation the materialized pets view shows the
optimistic Rex entity; after the server response the canonical store holds
the entity under the server-assigned key Pet:42, the reconciliation
function has prepended it to the pets list result, and the final
materialized list contains exactly one Rex entry, not two. -/
theorem create_pet_scenario :
    resolvePets (mutate st0 1 (some rexTemp) updatePets)
      = some [rexTemp, buddy] ∧
    (commit (mutate st0 1 (some rexTemp) updatePets) 1 rex42
        (some updatePets)).1.canonical.lookup ("Pet:42") = some rex42 ∧
    (commit (mutate st0 1 (some rexTemp) updatePets) 1 rex42
        (some updatePets)).1.petsResult
      = some [("Pet:42" : String), "Pet:1"] ∧
    ((resolvePets (commit (mutate st0 1 (some rexTemp) updatePets) 1 rex42
        (some updatePets)).1).getD []).countP
      (fun q => q.name == "Rex") = 1 := by
  decide

/-- Claim C7: when the caller-supplied reconciliation function throws after
the canonical write has committed, the canonical store still holds the
committed server payload under its key, and the error reaches the mutation
caller as a result value. -/
theorem recon_throw_keeps_canonical (st : CacheState) (seq : Nat)
    (server : Pet) (f : Recon) (e : String)
    (hf : f server (canonicalPets (writeCanonical (removeOverlay st seq)
        (petKey server) server)) = Except.error e) :
    (commit st seq server (some f)).1.canonical.lookup (petKey server)
      = some server ∧
    (commit st seq server (some f)).2 = some e := by
  constructor
  · simp only [commit, hf]
    exact lookup_writeEntity st.canonical (petKey server) server
  · simp only [commit, hf]

/-- Witness for C7: committing into the cache state with an absent pets
result makes the update function throw, yet the canonical record for the
server key is the committed payload and the error is returned as a value. -/
theorem recon_throw_keeps_canonical_witness :
    updatePets rex42 (canonicalPets (writeCanonical (removeOverlay stMiss 1)
        (petKey rex42) rex42))
      = Except.error ("cache miss: cannot read pets from cache") ∧
    ((commit stMiss 1 rex42 (some updatePets)).1.canonical.lookup
        (petKey rex42) = some rex42 ∧
     (commit stMiss 1 rex42 (some updatePets)).2
        = some ("cache miss: cannot read pets from cache")) :=
  ⟨rfl, recon_throw_keeps_canonical stMiss 1 rex42 updatePets
    ("cache miss: cannot read pets from cache") rfl⟩

/-- Claim C6: with mutations M1 (sequence 1) and M2 (sequence 2) pending on
the same key and M2 committing first, the later removal of M1's overlay
entry (here through M1's rejection) does not touch the canonical store, the
canonical record under the committed key is still M2's committed payload,
and a read of that key sees the committed payload — no stale optimistic
value is resurrected. -/
theorem overlay_removal_never_resurrects (st : CacheState)
    (p1 p2 server : Pet) (r1 r2 : Recon) (err : String)
    (hf1 : st.overlay.all (fun l => l.seq != 1) = true)
    (hf2 : st.overlay.all (fun l => l.seq != 2) = true)
    (hk : layerLookup st.overlay (petKey server) = none) :
    (reject (commit (mutate (mutate st 1 (some p1) r1) 2 (some p2) r2) 2
        server none).1 1 err).1.canonical
      = (commit (mutate (mutate st 1 (some p1) r1) 2 (some p2) r2) 2
        server none).1.canonical ∧
    (reject (commit (mutate (mutate st 1 (some p1) r1) 2 (some p2) r2) 2
        server none).1 1 err).1.canonical.lookup (petKey server)
      = some server ∧
    readEntity (reject (commit (mutate (mutate st 1 (some p1) r1) 2
        (some p2) r2) 2 server none).1 1 err).1 (petKey server)
      = some server := by
  have hov : (reject (commit (mutate (mutate st 1 (some p1) r1) 2
      (some p2) r2) 2 server none).1 1 err).1.overlay = st.overlay := by
    show (st.overlay.filter (fun l => l.seq != 2)).filter
        (fun l => l.seq != 1) = st.overlay
    rw [overlay_filter_fresh st.overlay 2 hf2,
      overlay_filter_fresh st.overlay 1 hf1]
  have hcanon : (reject (commit (mutate (mutate st 1 (some p1) r1) 2
      (some p2) r2) 2 server none).1 1 err).1.canonical.lookup
        (petKey server) = some server :=
    lookup_writeEntity st.canonical (petKey server) server
  refine ⟨rfl, hcanon, ?_⟩
  simp only [readEntity, hov, hk]
  exact hcanon

/-- Witness for C6: two concurrent optimistic Rex mutations on the one-pet
state, with sequence 2 committing the server payload first and sequence 1
rejected afterwards. -/
theorem overlay_removal_never_resurrects_witness :
    (st0.overlay.all (fun l => l.seq != 1) = true ∧
     st0.overlay.all (fun l => l.seq != 2) = true ∧
     layerLookup st0.overlay (petKey rex42) = none) ∧
    ((reject (commit (mutate (mutate st0 1 (some rexTemp) updatePets) 2
        (some rexTemp) updatePets) 2 rex42 none).1 1 ("offline")).1.canonical
      = (commit (mutate (mutate st0 1 (some rexTemp) updatePets) 2
        (some rexTemp) updatePets) 2 rex42 none).1.canonical ∧
     (reject (commit (mutate (mutate st0 1 (some rexTemp) updatePets) 2
        (some rexTemp) updatePets) 2 rex42 none).1 1 ("offline")).1.canonical.lookup
        (petKey rex42) = some rex42 ∧
     readEntity (reject (commit (mutate (mutate st0 1 (some rexTemp)
        updatePets) 2 (some rexTemp) updatePets) 2 rex42 none).1 1
        ("offline")).1 (petKey rex42) = some rex42) :=
  ⟨⟨rfl, rfl, rfl⟩,
   overlay_removal_never_resurrects st0 rexTemp rexTemp rex42 updatePets
     updatePets ("offline") rfl rfl rfl⟩

end GraphqlClient
